import Mathlib

/-
Verification of the `Matrix4` linear-algebra utility
(`src/include/util/ExtendedMath.h`) and of the GUI widget state machines
(`src/src/gui/Button.cpp`, `src/src/gui/DropdownList.cpp`), shallowly
embedded in Lean.  The matrix code is a C++ template `Matrix4<T>`; the
claims about it concern exact arithmetic, so the embedding instantiates
the entry type with `ℚ`.  Stateful widget methods become pure state
transition functions: every external input read inside a method (mouse
position tests against shape bounds, the global mouse-button state, the
polled event) becomes an explicit argument.
-/

namespace em

/-- Model of `sf::Vector3<T>` with exact rational entries: the fields
`x`, `y`, `z` of the SFML vector. -/
structure Vector3 where
  x : ℚ
  y : ℚ
  z : ℚ
deriving DecidableEq

/-- Componentwise addition of `sf::Vector3` (its `operator+`). -/
def Vector3.add (a b : Vector3) : Vector3 :=
  ⟨a.x + b.x, a.y + b.y, a.z + b.z⟩

/-- Model of `em::Matrix4<T>` for exact arithmetic: the sixteen entries of
`T m_matrix[4][4]`, field `aij` being `m_matrix[i][j]`.  The field order
follows the element constructor `Matrix4(a00, a01, ..., a33)`. -/
structure Matrix4 where
  a00 : ℚ
  a01 : ℚ
  a02 : ℚ
  a03 : ℚ
  a10 : ℚ
  a11 : ℚ
  a12 : ℚ
  a13 : ℚ
  a20 : ℚ
  a21 : ℚ
  a22 : ℚ
  a23 : ℚ
  a30 : ℚ
  a31 : ℚ
  a32 : ℚ
  a33 : ℚ
deriving DecidableEq

/-- The default constructor `Matrix4<T>::Matrix4()`: it fills `m_matrix`
with the identity matrix (ones on the diagonal, zeroes elsewhere). -/
def Matrix4.identity : Matrix4 :=
  ⟨1, 0, 0, 0,
   0, 1, 0, 0,
   0, 0, 1, 0,
   0, 0, 0, 1⟩

/-- Embedding of `Matrix4<T>::operator*(const Matrix4<T> &right) const`: each entry
`result[i][j]` is written out in the source as
`(*this)[i][0]*right[0][j] + (*this)[i][1]*right[1][j] +
 (*this)[i][2]*right[2][j] + (*this)[i][3]*right[3][j]`. -/
def Matrix4.mul (a b : Matrix4) : Matrix4 where
  a00 := a.a00 * b.a00 + a.a01 * b.a10 + a.a02 * b.a20 + a.a03 * b.a30
  a01 := a.a00 * b.a01 + a.a01 * b.a11 + a.a02 * b.a21 + a.a03 * b.a31
  a02 := a.a00 * b.a02 + a.a01 * b.a12 + a.a02 * b.a22 + a.a03 * b.a32
  a03 := a.a00 * b.a03 + a.a01 * b.a13 + a.a02 * b.a23 + a.a03 * b.a33
  a10 := a.a10 * b.a00 + a.a11 * b.a10 + a.a12 * b.a20 + a.a13 * b.a30
  a11 := a.a10 * b.a01 + a.a11 * b.a11 + a.a12 * b.a21 + a.a13 * b.a31
  a12 := a.a10 * b.a02 + a.a11 * b.a12 + a.a12 * b.a22 + a.a13 * b.a32
  a13 := a.a10 * b.a03 + a.a11 * b.a13 + a.a12 * b.a23 + a.a13 * b.a33
  a20 := a.a20 * b.a00 + a.a21 * b.a10 + a.a22 * b.a20 + a.a23 * b.a30
  a21 := a.a20 * b.a01 + a.a21 * b.a11 + a.a22 * b.a21 + a.a23 * b.a31
  a22 := a.a20 * b.a02 + a.a21 * b.a12 + a.a22 * b.a22 + a.a23 * b.a32
  a23 := a.a20 * b.a03 + a.a21 * b.a13 + a.a22 * b.a23 + a.a23 * b.a33
  a30 := a.a30 * b.a00 + a.a31 * b.a10 + a.a32 * b.a20 + a.a33 * b.a30
  a31 := a.a30 * b.a01 + a.a31 * b.a11 + a.a32 * b.a21 + a.a33 * b.a31
  a32 := a.a30 * b.a02 + a.a31 * b.a12 + a.a32 * b.a22 + a.a33 * b.a32
  a33 := a.a30 * b.a03 + a.a31 * b.a13 + a.a32 * b.a23 + a.a33 * b.a33

/-- Read access `m[i][j]` through the two `operator[]` overloads, as a
function of the row and column index. -/
def Matrix4.entry (m : Matrix4) : Fin 4 → Fin 4 → ℚ
  | 0, 0 => m.a00
  | 0, 1 => m.a01
  | 0, 2 => m.a02
  | 0, 3 => m.a03
  | 1, 0 => m.a10
  | 1, 1 => m.a11
  | 1, 2 => m.a12
  | 1, 3 => m.a13
  | 2, 0 => m.a20
  | 2, 1 => m.a21
  | 2, 2 => m.a22
  | 2, 3 => m.a23
  | 3, 0 => m.a30
  | 3, 1 => m.a31
  | 3, 2 => m.a32
  | 3, 3 => m.a33

/-- Embedding of `Matrix4<T>::translate(const sf::Vector3<T> &translation)`: it adds
`translation.x`, `translation.y`, `translation.z` to `m_matrix[0][3]`,
`m_matrix[1][3]`, `m_matrix[2][3]` in place and returns `*this`; the
embedding returns the updated matrix. -/
def Matrix4.translate (m : Matrix4) (translation : Vector3) : Matrix4 :=
  { m with
    a03 := m.a03 + translation.x
    a13 := m.a13 + translation.y
    a23 := m.a23 + translation.z }

/-- Embedding of `Matrix4<T>::toPosition() const`: returns
`sf::Vector3<T>(m_matrix[0][3], m_matrix[1][3], m_matrix[2][3])`. -/
def Matrix4.toPosition (m : Matrix4) : Vector3 :=
  ⟨m.a03, m.a13, m.a23⟩

/-
The three rotation methods convert their `angle` argument from degrees to
radians (`rad = fmod(angle * emPI / 180.0, 2.0 * emPI)` with
`emPI = 3.141592654`) and then take `std::cos(rad)` and `std::sin(rad)`
in floating point.  The floating-point trigonometry has no exact
embedding; the two computed values are abstracted as the parameters
`c` and `s` below, and what remains of each method — the layout of the
rotation matrix it builds from `c` and `s` and the `*=` by it — is
embedded exactly.
-/

/-- Embedding of `Matrix4<T>::rotateX(const float &angle)`: executes
`(*this) *= Matrix4<T>(1,0,0,0, 0,cos_x,-sin_x,0, 0,sin_x,cos_x,0,
0,0,0,1)` where `c`, `s` stand for the computed `cos_x`, `sin_x`. -/
def Matrix4.rotateX (m : Matrix4) (c s : ℚ) : Matrix4 :=
  m.mul ⟨1, 0, 0, 0,
         0, c, -s, 0,
         0, s, c, 0,
         0, 0, 0, 1⟩

/-- Embedding of `Matrix4<T>::rotateY(const float &angle)`: executes
`(*this) *= Matrix4<T>(cos_y,0,sin_y,0, 0,1,0,0, -sin_y,0,cos_y,0,
0,0,0,1)` where `c`, `s` stand for the computed `cos_y`, `sin_y`. -/
def Matrix4.rotateY (m : Matrix4) (c s : ℚ) : Matrix4 :=
  m.mul ⟨c, 0, s, 0,
         0, 1, 0, 0,
         -s, 0, c, 0,
         0, 0, 0, 1⟩

/-- Embedding of `Matrix4<T>::rotateZ(const float &angle)`: executes
`(*this) *= Matrix4<T>(cos_z,-sin_z,0,0, sin_z,cos_z,0,0, 0,0,1,0,
0,0,0,1)` where `c`, `s` stand for the computed `cos_z`, `sin_z`. -/
def Matrix4.rotateZ (m : Matrix4) (c s : ℚ) : Matrix4 :=
  m.mul ⟨c, -s, 0, 0,
         s, c, 0, 0,
         0, 0, 1, 0,
         0, 0, 0, 1⟩

/-- Embedding of `Matrix4<T>::scale(const sf::Vector3<T> &scale)`: executes
`(*this) *= Matrix4<T>(scale.x,0,0,0, 0,scale.y,0,0, 0,0,scale.z,0,
0,0,0,1)`. -/
def Matrix4.scale (m : Matrix4) (s : Vector3) : Matrix4 :=
  m.mul ⟨s.x, 0, 0, 0,
         0, s.y, 0, 0,
         0, 0, s.z, 0,
         0, 0, 0, 1⟩

/-- Embedding of `Matrix4<T>::mirror(const bool xAxis, const bool yAxis, const bool
zAxis)`: builds `mirrorMatrix` as a default (identity) matrix, sets
`[0][0]`, `[1][1]`, `[2][2]` to `-1` for each requested axis, and
executes `(*this) *= mirrorMatrix`. -/
def Matrix4.mirror (m : Matrix4) (xAxis yAxis zAxis : Bool) : Matrix4 :=
  let mm := Matrix4.identity
  let mm := if xAxis then { mm with a00 := -1 } else mm
  let mm := if yAxis then { mm with a11 := -1 } else mm
  let mm := if zAxis then { mm with a22 := -1 } else mm
  m.mul mm

/-- The sixteen entries `result[i][j]` computed at the start of
`Matrix4<T>::operator-() const` (lines 326-436): the adjugate of `m`
by cofactor expansion, transcribed term for term from the source. -/
def Matrix4.cofactorResult (m : Matrix4) : Matrix4 where
  a00 := m.a11 * m.a22 * m.a33 - m.a11 * m.a23 * m.a32 -
    m.a21 * m.a12 * m.a33 + m.a21 * m.a13 * m.a32 +
    m.a31 * m.a12 * m.a23 - m.a31 * m.a13 * m.a22
  a10 := -m.a10 * m.a22 * m.a33 + m.a10 * m.a23 * m.a32 +
    m.a20 * m.a12 * m.a33 - m.a20 * m.a13 * m.a32 -
    m.a30 * m.a12 * m.a23 + m.a30 * m.a13 * m.a22
  a20 := m.a10 * m.a21 * m.a33 - m.a10 * m.a23 * m.a31 -
    m.a20 * m.a11 * m.a33 + m.a20 * m.a13 * m.a31 +
    m.a30 * m.a11 * m.a23 - m.a30 * m.a13 * m.a21
  a30 := -m.a10 * m.a21 * m.a32 + m.a10 * m.a22 * m.a31 +
    m.a20 * m.a11 * m.a32 - m.a20 * m.a12 * m.a31 -
    m.a30 * m.a11 * m.a22 + m.a30 * m.a12 * m.a21
  a01 := -m.a01 * m.a22 * m.a33 + m.a01 * m.a23 * m.a32 +
    m.a21 * m.a02 * m.a33 - m.a21 * m.a03 * m.a32 -
    m.a31 * m.a02 * m.a23 + m.a31 * m.a03 * m.a22
  a11 := m.a00 * m.a22 * m.a33 - m.a00 * m.a23 * m.a32 -
    m.a20 * m.a02 * m.a33 + m.a20 * m.a03 * m.a32 +
    m.a30 * m.a02 * m.a23 - m.a30 * m.a03 * m.a22
  a21 := -m.a00 * m.a21 * m.a33 + m.a00 * m.a23 * m.a31 +
    m.a20 * m.a01 * m.a33 - m.a20 * m.a03 * m.a31 -
    m.a30 * m.a01 * m.a23 + m.a30 * m.a03 * m.a21
  a31 := m.a00 * m.a21 * m.a32 - m.a00 * m.a22 * m.a31 -
    m.a20 * m.a01 * m.a32 + m.a20 * m.a02 * m.a31 +
    m.a30 * m.a01 * m.a22 - m.a30 * m.a02 * m.a21
  a02 := m.a01 * m.a12 * m.a33 - m.a01 * m.a13 * m.a32 -
    m.a11 * m.a02 * m.a33 + m.a11 * m.a03 * m.a32 +
    m.a31 * m.a02 * m.a13 - m.a31 * m.a03 * m.a12
  a12 := -m.a00 * m.a12 * m.a33 + m.a00 * m.a13 * m.a32 +
    m.a10 * m.a02 * m.a33 - m.a10 * m.a03 * m.a32 -
    m.a30 * m.a02 * m.a13 + m.a30 * m.a03 * m.a12
  a22 := m.a00 * m.a11 * m.a33 - m.a00 * m.a13 * m.a31 -
    m.a10 * m.a01 * m.a33 + m.a10 * m.a03 * m.a31 +
    m.a30 * m.a01 * m.a13 - m.a30 * m.a03 * m.a11
  a32 := -m.a00 * m.a11 * m.a32 + m.a00 * m.a12 * m.a31 +
    m.a10 * m.a01 * m.a32 - m.a10 * m.a02 * m.a31 -
    m.a30 * m.a01 * m.a12 + m.a30 * m.a02 * m.a11
  a03 := -m.a01 * m.a12 * m.a23 + m.a01 * m.a13 * m.a22 +
    m.a11 * m.a02 * m.a23 - m.a11 * m.a03 * m.a22 -
    m.a21 * m.a02 * m.a13 + m.a21 * m.a03 * m.a12
  a13 := m.a00 * m.a12 * m.a23 - m.a00 * m.a13 * m.a22 -
    m.a10 * m.a02 * m.a23 + m.a10 * m.a03 * m.a22 +
    m.a20 * m.a02 * m.a13 - m.a20 * m.a03 * m.a12
  a23 := -m.a00 * m.a11 * m.a23 + m.a00 * m.a13 * m.a21 +
    m.a10 * m.a01 * m.a23 - m.a10 * m.a03 * m.a21 -
    m.a20 * m.a01 * m.a13 + m.a20 * m.a03 * m.a11
  a33 := m.a00 * m.a11 * m.a22 - m.a00 * m.a12 * m.a21 -
    m.a10 * m.a01 * m.a22 + m.a10 * m.a02 * m.a21 +
    m.a20 * m.a01 * m.a12 - m.a20 * m.a02 * m.a11

/-- The determinant computed in `Matrix4<T>::operator-() const`
(line 439): `det = m[0][0]*result[0][0] + m[0][1]*result[1][0] +
m[0][2]*result[2][0] + m[0][3]*result[3][0]`. -/
def Matrix4.det (m : Matrix4) : ℚ :=
  m.a00 * m.cofactorResult.a00 + m.a01 * m.cofactorResult.a10 +
    m.a02 * m.cofactorResult.a20 + m.a03 * m.cofactorResult.a30

/-- The final loop of `Matrix4<T>::operator-() const` (lines 448-454):
`result[i][j] *= det` for every entry, where `det` now holds the scalar
to multiply by. -/
def Matrix4.smulAll (a : Matrix4) (t : ℚ) : Matrix4 :=
  ⟨a.a00 * t, a.a01 * t, a.a02 * t, a.a03 * t,
   a.a10 * t, a.a11 * t, a.a12 * t, a.a13 * t,
   a.a20 * t, a.a21 * t, a.a22 * t, a.a23 * t,
   a.a30 * t, a.a31 * t, a.a32 * t, a.a33 * t⟩

/-- Embedding of `Matrix4<T>::operator-() const` (the matrix-inverse operator): after
computing `result` (the adjugate) and `det`, it returns a
default-constructed `Matrix4<T>()` when `det == 0`, and otherwise
executes `det = 1.0 / det` and multiplies every `result[i][j]` by it. -/
def Matrix4.neg (m : Matrix4) : Matrix4 :=
  if m.det = 0 then
    Matrix4.identity
  else
    m.cofactorResult.smulAll (1 / m.det)

/-- Spec-side definition for C4 (written from the spec's words, to be
compared with `Matrix4.rotateZ`): the standard rotation matrix about the
Z axis, `[[cos, -sin, 0, 0], [sin, cos, 0, 0], [0, 0, 1, 0],
[0, 0, 0, 1]]`, with `c = cos` and `s = sin` of the angle. -/
def rotationZSpec (c s : ℚ) : Matrix4 :=
  ⟨c, -s, 0, 0,
   s, c, 0, 0,
   0, 0, 1, 0,
   0, 0, 0, 1⟩

/-- Spec-side definition for C4: the standard rotation matrix about the
X axis. -/
def rotationXSpec (c s : ℚ) : Matrix4 :=
  ⟨1, 0, 0, 0,
   0, c, -s, 0,
   0, s, c, 0,
   0, 0, 0, 1⟩

/-- Spec-side definition for C4: the standard rotation matrix about the
Y axis. -/
def rotationYSpec (c s : ℚ) : Matrix4 :=
  ⟨c, 0, s, 0,
   0, 1, 0, 0,
   -s, 0, c, 0,
   0, 0, 0, 1⟩

/-- Spec-side definition for C6 (written from the spec's words): the
diagonal matrix `diag(s.x, s.y, s.z, 1)`. -/
def scaleDiagSpec (s : Vector3) : Matrix4 :=
  ⟨s.x, 0, 0, 0,
   0, s.y, 0, 0,
   0, 0, s.z, 0,
   0, 0, 0, 1⟩

end em

namespace gui

/-- Model of `sf::Color` restricted to the three channels the widget code
sets (`sf::Color(r, g, b)`). -/
structure Color where
  r : ℕ
  g : ℕ
  b : ℕ
deriving DecidableEq

/-- The `Button::state` enumeration (`IDLE`, `HOVER`, `ACTIVE`,
`LOCKED`). -/
inductive BState where
  | IDLE
  | HOVER
  | ACTIVE
  | LOCKED
deriving DecidableEq

/-- The `Button` state that `Button::update` reads and writes: `m_state`
and the fill color of `m_shape`.  Geometry (position, size, outline) is
carried by the shape and never changed by `update`; the test
`m_shape.getGlobalBounds().contains(mousePos.x, mousePos.y)` and the poll
`sf::Mouse::isButtonPressed(sf::Mouse::Left)` enter the model as the
explicit inputs `withinBounds` and `mousePressed` of `update`. -/
structure ButtonM where
  state : BState
  fill : Color
deriving DecidableEq

/-- Embedding of `Button::isPressed() const`: `m_state == Button::state::ACTIVE`. -/
def ButtonM.isPressed (b : ButtonM) : Bool :=
  decide (b.state = BState.ACTIVE)

/-- Embedding of `Button::lockButton()`: sets `m_state` to `LOCKED`. -/
def ButtonM.lockButton (b : ButtonM) : ButtonM :=
  { b with state := BState.LOCKED }

/-- Embedding of `Button::unlockButton()`: sets `m_state` to `IDLE`. -/
def ButtonM.unlockButton (b : ButtonM) : ButtonM :=
  { b with state := BState.IDLE }

/-- Embedding of `Button::update(sf::Vector2i mousePos, sf::Event &event)`: when not
`LOCKED`, sets `m_state` to `HOVER` inside the bounds (overwritten by
`ACTIVE` when the left mouse button is pressed) and `IDLE` outside, then
recolors `m_shape` according to the new state.  A `LOCKED` button skips
the whole body. -/
def ButtonM.update (b : ButtonM) (withinBounds mousePressed : Bool) :
    ButtonM :=
  if b.state = BState.LOCKED then
    b
  else
    let s1 := if withinBounds then
        (if mousePressed then BState.ACTIVE else BState.HOVER)
      else BState.IDLE
    let fill := if s1 = BState.IDLE then Color.mk 200 200 200
      else if s1 = BState.HOVER then Color.mk 100 100 100
      else Color.mk 100 200 100
    ⟨s1, fill⟩

/-- The `DropdownList::DropStatus` enumeration (`HIDDEN`, `DROPPED`). -/
inductive DropStatus where
  | HIDDEN
  | DROPPED
deriving DecidableEq

/-- The `DropdownList` state its methods read and write: the inherited
`TextButton`/`Button` state (`button`), the choice buttons `m_choices`
(each a `TextButton`, modelled by its `Button` state; labels and
geometry are not needed by the claims), `m_dropStatus`,
`m_currentChoice` and `m_isChanged`. -/
structure DropdownM where
  button : ButtonM
  choices : List ButtonM
  dropStatus : DropStatus
  currentChoice : ℕ
  isChanged : Bool

/-- The `DropdownList` constructors: `m_dropStatus(HIDDEN)`,
`m_currentChoice(0u)`, `m_isChanged = false`, and no choices yet. -/
def DropdownM.init (b : ButtonM) : DropdownM :=
  ⟨b, [], DropStatus.HIDDEN, 0, false⟩

/-- Embedding of `DropdownList::addChoice(std::unique_ptr<TextButton> new_choice)`:
positions and resizes the new choice and appends it to `m_choices`; no
other claim-relevant member changes. -/
def DropdownM.addChoice (d : DropdownM) (c : ButtonM) : DropdownM :=
  { d with choices := d.choices ++ [c] }

/-- Embedding of `DropdownList::getCurrentChoice() const`: returns
`m_currentChoice`. -/
def DropdownM.getCurrentChoice (d : DropdownM) : ℕ :=
  d.currentChoice

/-- The `for(auto &it : m_choices)` loop of `DropdownList::update`: each
choice is updated (`ws` lists, per choice, whether the mouse is inside
that choice's bounds; `pressed` is the global left-button poll) and, if
it reports pressed, `m_dropStatus` becomes `HIDDEN`, `m_currentChoice`
becomes the running 1-based counter `count`, and `m_isChanged` becomes
`true`.  Returns the updated choices and the final `(currentChoice,
dropStatus, isChanged)`. -/
def DropdownM.updateChoicesGo (cs : List ButtonM) (ws : List Bool)
    (pressed : Bool) (count : ℕ) (cur : ℕ) (ds : DropStatus)
    (ch : Bool) : List ButtonM × ℕ × DropStatus × Bool :=
  match cs with
  | [] => ([], cur, ds, ch)
  | c :: rest =>
    let c2 := ButtonM.update c (ws.headD false) pressed
    let cur2 := if c2.isPressed then count else cur
    let ds2 := if c2.isPressed then DropStatus.HIDDEN else ds
    let ch2 := if c2.isPressed then true else ch
    let r := DropdownM.updateChoicesGo rest ws.tail pressed (count + 1)
      cur2 ds2 ch2
    (c2 :: r.1, r.2)

/-- Embedding of `DropdownList::update(sf::Vector2i mousePos, sf::Event &event)`:
first `TextButton::update` on the widget itself (`mainWithin` is the
bounds test of `m_shape`, `pressed` the left-button poll), then — only
when `m_dropStatus == DROPPED` — the choice loop with `count` starting
at `1`, then, when the widget is not `LOCKED`, the mouse is inside
`m_shape` and the polled event is a left-button release
(`leftReleased`), `m_dropStatus` toggles between `HIDDEN` and
`DROPPED`. -/
def DropdownM.update (d : DropdownM) (ws : List Bool)
    (pressed mainWithin leftReleased : Bool) : DropdownM :=
  let b2 := ButtonM.update d.button mainWithin pressed
  let l := if d.dropStatus = DropStatus.DROPPED then
      DropdownM.updateChoicesGo d.choices ws pressed 1 d.currentChoice
        d.dropStatus d.isChanged
    else (d.choices, d.currentChoice, d.dropStatus, d.isChanged)
  let ds2 := l.2.2.1
  let ds3 := if b2.state ≠ BState.LOCKED ∧ mainWithin ∧ leftReleased then
      (if ds2 = DropStatus.HIDDEN then DropStatus.DROPPED
       else DropStatus.HIDDEN)
    else ds2
  ⟨b2, l.1, ds3, l.2.1, l.2.2.2⟩

/-- Spec-side definition for C10 (written from the claim's words): the
0-based position in `cs` of the most recently pressed choice during one
pass of the update loop.  The loop visits the choices in list order and
overwrites `m_currentChoice` at every pressed one, so the most recent
press of the pass is the last choice in the list whose update (with its
own bounds flag from `ws` and the shared button poll `pressed`) reports
`isPressed()`; when no choice reports pressed the result is `none`. -/
def lastPressedChoice (cs : List ButtonM) (ws : List Bool)
    (pressed : Bool) : Option ℕ :=
  match cs with
  | [] => none
  | c :: rest =>
    match lastPressedChoice rest ws.tail pressed with
    | some j => some (j + 1)
    | none =>
      if (ButtonM.update c (ws.headD false) pressed).isPressed then some 0
      else none

/-- The states a `DropdownList` can be in at rest: freshly constructed,
or reached from a reachable state by `addChoice` or `update`. -/
inductive DropReach : DropdownM → Prop
  | init (b : ButtonM) : DropReach (DropdownM.init b)
  | add {d : DropdownM} (c : ButtonM) : DropReach d →
      DropReach (d.addChoice c)
  | upd {d : DropdownM} (ws : List Bool)
      (pressed mainWithin leftReleased : Bool) : DropReach d →
      DropReach (d.update ws pressed mainWithin leftReleased)

end gui

namespace em

theorem Matrix4.ext_iff {a b : Matrix4} :
    a = b ↔ a.a00 = b.a00 ∧ a.a01 = b.a01 ∧ a.a02 = b.a02 ∧ a.a03 = b.a03 ∧
      a.a10 = b.a10 ∧ a.a11 = b.a11 ∧ a.a12 = b.a12 ∧ a.a13 = b.a13 ∧
      a.a20 = b.a20 ∧ a.a21 = b.a21 ∧ a.a22 = b.a22 ∧ a.a23 = b.a23 ∧
      a.a30 = b.a30 ∧ a.a31 = b.a31 ∧ a.a32 = b.a32 ∧ a.a33 = b.a33 := by
  constructor
  · rintro rfl
    exact ⟨rfl, rfl, rfl, rfl, rfl, rfl, rfl, rfl,
      rfl, rfl, rfl, rfl, rfl, rfl, rfl, rfl⟩
  · rintro ⟨h00, h01, h02, h03, h10, h11, h12, h13,
      h20, h21, h22, h23, h30, h31, h32, h33⟩
    cases a; cases b; simp_all

/-- C7: the default-constructed `Matrix4` is the identity matrix and is a
two-sided neutral element of `operator*`: `Matrix4() * m == m` and
`m * Matrix4() == m` for every matrix `m`. -/
theorem identity_mul_and_mul_identity (m : Matrix4) :
    Matrix4.mul Matrix4.identity m = m ∧ Matrix4.mul m Matrix4.identity = m := by
  constructor <;>
    · rw [Matrix4.ext_iff]
      refine ⟨?_, ?_, ?_, ?_, ?_, ?_, ?_, ?_, ?_, ?_, ?_, ?_, ?_, ?_, ?_, ?_⟩ <;>
        simp [Matrix4.mul, Matrix4.identity]

/-- C2: `operator*` implements the standard 4x4 matrix product: every
entry `[i][j]` of `a * b` equals the sum over `k` of `a[i][k] * b[k][j]`.
(The operator is `const` and takes `right` by const reference; in this
pure embedding it builds a fresh `result`, so neither operand changes.) -/
theorem mul_entry_eq_sum (a b : Matrix4) (i j : Fin 4) :
    (a.mul b).entry i j = ∑ k : Fin 4, a.entry i k * b.entry k j := by
  fin_cases i <;> fin_cases j <;>
    simp [Matrix4.entry, Matrix4.mul, Fin.sum_univ_four]

/-- C3: `translate(v)` adds `v.x`, `v.y`, `v.z` to the entries `[0][3]`,
`[1][3]`, `[2][3]`, leaves the other thirteen entries unchanged, and
afterwards `toPosition()` returns the previous position plus `v`. -/
theorem translate_spec (m : Matrix4) (v : Vector3) :
    (m.translate v).a03 = m.a03 + v.x ∧
    (m.translate v).a13 = m.a13 + v.y ∧
    (m.translate v).a23 = m.a23 + v.z ∧
    (m.translate v).a00 = m.a00 ∧ (m.translate v).a01 = m.a01 ∧
    (m.translate v).a02 = m.a02 ∧ (m.translate v).a10 = m.a10 ∧
    (m.translate v).a11 = m.a11 ∧ (m.translate v).a12 = m.a12 ∧
    (m.translate v).a20 = m.a20 ∧ (m.translate v).a21 = m.a21 ∧
    (m.translate v).a22 = m.a22 ∧ (m.translate v).a30 = m.a30 ∧
    (m.translate v).a31 = m.a31 ∧ (m.translate v).a32 = m.a32 ∧
    (m.translate v).a33 = m.a33 ∧
    (m.translate v).toPosition = m.toPosition.add v :=
  ⟨rfl, rfl, rfl, rfl, rfl, rfl, rfl, rfl, rfl,
   rfl, rfl, rfl, rfl, rfl, rfl, rfl, rfl⟩

/-- C4: each rotation method right-multiplies the receiver by the
standard rotation matrix for its axis, built from the cosine `c` and the
sine `s` the method computes from the angle, and the result is the
updated receiver (the C++ method updates `*this` in place and returns a
reference to it). -/
theorem rotate_right_multiplies_standard_matrix (m : Matrix4) (c s : ℚ) :
    m.rotateZ c s = m.mul (rotationZSpec c s) ∧
    m.rotateX c s = m.mul (rotationXSpec c s) ∧
    m.rotateY c s = m.mul (rotationYSpec c s) :=
  ⟨rfl, rfl, rfl⟩

/-- Helper: `mirror` right-multiplies by the diagonal matrix whose first
three diagonal entries are `-1` for each selected axis and `1` otherwise. -/
theorem mirror_unfold (m : Matrix4) (x y z : Bool) :
    m.mirror x y z = m.mul
      ⟨if x then -1 else 1, 0, 0, 0,
       0, if y then -1 else 1, 0, 0,
       0, 0, if z then -1 else 1, 0,
       0, 0, 0, 1⟩ := by
  cases x <;> cases y <;> cases z <;> rfl

/-- C5: mirroring is an involution: whatever combination of axis flags is
chosen, applying `mirror(x, y, z)` twice restores the original matrix,
because it right-multiplies by a diagonal matrix with entries in
`{-1, 1}` whose square is the identity. -/
theorem mirror_mirror_eq_self (m : Matrix4) (x y z : Bool) :
    (m.mirror x y z).mirror x y z = m := by
  rw [mirror_unfold, mirror_unfold, Matrix4.ext_iff]
  refine ⟨?_, ?_, ?_, ?_, ?_, ?_, ?_, ?_, ?_, ?_, ?_, ?_, ?_, ?_, ?_, ?_⟩ <;>
    · simp only [Matrix4.mul]
      cases x <;> cases y <;> cases z <;> simp

/-- C6: `scale(s)` replaces the matrix with its product on the right by
the diagonal matrix `diag(s.x, s.y, s.z, 1)`; in particular scaling by
`(1, 1, 1)` leaves every matrix unchanged. -/
theorem scale_eq_mul_diag (m : Matrix4) (s : Vector3) :
    m.scale s = m.mul (scaleDiagSpec s) ∧
    m.scale ⟨1, 1, 1⟩ = m := by
  refine ⟨rfl, ?_⟩
  rw [Matrix4.ext_iff]
  refine ⟨?_, ?_, ?_, ?_, ?_, ?_, ?_, ?_, ?_, ?_, ?_, ?_, ?_, ?_, ?_, ?_⟩ <;>
    · simp [Matrix4.scale, Matrix4.mul]

/-- Helper (the adjugate identity, left version): the `result` matrix of
`operator-` times `m` is `det` times the identity. -/
theorem cofactorResult_mul_self (m : Matrix4) :
    m.cofactorResult.mul m =
      ⟨m.det, 0, 0, 0,
       0, m.det, 0, 0,
       0, 0, m.det, 0,
       0, 0, 0, m.det⟩ := by
  rw [Matrix4.ext_iff]
  refine ⟨?_, ?_, ?_, ?_, ?_, ?_, ?_, ?_, ?_, ?_, ?_, ?_, ?_, ?_, ?_, ?_⟩ <;>
    simp only [Matrix4.mul, Matrix4.det, Matrix4.cofactorResult] <;> ring

/-- Helper (the adjugate identity, right version): `m` times the
`result` matrix of `operator-` is `det` times the identity. -/
theorem self_mul_cofactorResult (m : Matrix4) :
    m.mul m.cofactorResult =
      ⟨m.det, 0, 0, 0,
       0, m.det, 0, 0,
       0, 0, m.det, 0,
       0, 0, 0, m.det⟩ := by
  rw [Matrix4.ext_iff]
  refine ⟨?_, ?_, ?_, ?_, ?_, ?_, ?_, ?_, ?_, ?_, ?_, ?_, ?_, ?_, ?_, ?_⟩ <;>
    simp only [Matrix4.mul, Matrix4.det, Matrix4.cofactorResult] <;> ring

/-- Helper: entrywise scaling commutes with multiplication on the left
factor. -/
theorem smulAll_mul (a b : Matrix4) (t : ℚ) :
    (a.smulAll t).mul b = (a.mul b).smulAll t := by
  rw [Matrix4.ext_iff]
  refine ⟨?_, ?_, ?_, ?_, ?_, ?_, ?_, ?_, ?_, ?_, ?_, ?_, ?_, ?_, ?_, ?_⟩ <;>
    · simp only [Matrix4.mul, Matrix4.smulAll]
      ring

/-- Helper: entrywise scaling commutes with multiplication on the right
factor. -/
theorem mul_smulAll (a b : Matrix4) (t : ℚ) :
    a.mul (b.smulAll t) = (a.mul b).smulAll t := by
  rw [Matrix4.ext_iff]
  refine ⟨?_, ?_, ?_, ?_, ?_, ?_, ?_, ?_, ?_, ?_, ?_, ?_, ?_, ?_, ?_, ?_⟩ <;>
    · simp only [Matrix4.mul, Matrix4.smulAll]
      ring

/-- Helper: scaling `det` times the identity by `1 / det` gives the
identity when `det` is nonzero. -/
theorem smulAll_det_identity (d : ℚ) (h : d ≠ 0) :
    (⟨d, 0, 0, 0, 0, d, 0, 0, 0, 0, d, 0, 0, 0, 0, d⟩ :
        Matrix4).smulAll (1 / d) = Matrix4.identity := by
  rw [Matrix4.ext_iff]
  refine ⟨?_, ?_, ?_, ?_, ?_, ?_, ?_, ?_, ?_, ?_, ?_, ?_, ?_, ?_, ?_, ?_⟩ <;>
    simp [Matrix4.smulAll, Matrix4.identity, mul_one_div, div_self h,
      mul_inv_cancel₀ h]

/-- C1: over exact arithmetic, for every matrix with nonzero determinant
the negation operator returns the matrix inverse computed via cofactor
expansion: both `(-m) * m` and `m * (-m)` are the identity matrix. -/
theorem neg_is_inverse (m : Matrix4) (h : m.det ≠ 0) :
    m.neg.mul m = Matrix4.identity ∧ m.mul m.neg = Matrix4.identity := by
  have hneg : m.neg = m.cofactorResult.smulAll (1 / m.det) := by
    unfold Matrix4.neg
    rw [if_neg h]
  constructor
  · rw [hneg, smulAll_mul, cofactorResult_mul_self, smulAll_det_identity _ h]
  · rw [hneg, mul_smulAll, self_mul_cofactorResult, smulAll_det_identity _ h]

/-- Witness for C1 at a concrete invertible matrix (a scaling by
`(2, 3, 4)` composed with a translation by `(5, 6, 7)`). -/
theorem neg_is_inverse_witness :
    (⟨2, 0, 0, 5, 0, 3, 0, 6, 0, 0, 4, 7, 0, 0, 0, 1⟩ : Matrix4).det ≠ 0 ∧
    ((⟨2, 0, 0, 5, 0, 3, 0, 6, 0, 0, 4, 7, 0, 0, 0, 1⟩ : Matrix4).neg.mul
        ⟨2, 0, 0, 5, 0, 3, 0, 6, 0, 0, 4, 7, 0, 0, 0, 1⟩ = Matrix4.identity ∧
      (⟨2, 0, 0, 5, 0, 3, 0, 6, 0, 0, 4, 7, 0, 0, 0, 1⟩ : Matrix4).mul
        (⟨2, 0, 0, 5, 0, 3, 0, 6, 0, 0, 4, 7, 0, 0, 0, 1⟩ : Matrix4).neg =
        Matrix4.identity) :=
  ⟨by norm_num [Matrix4.det, Matrix4.cofactorResult],
   neg_is_inverse _ (by norm_num [Matrix4.det, Matrix4.cofactorResult])⟩

/-- C8: when the determinant is zero the negation operator does not
signal an error: it returns a freshly default-constructed (identity)
matrix.  (The operator is `const`, so the receiver is never modified; in
this pure embedding it is a function of the receiver.) -/
theorem neg_singular_eq_identity (m : Matrix4) (h : m.det = 0) :
    m.neg = Matrix4.identity := by
  simp only [Matrix4.neg]
  rw [if_pos h]

/-- Witness for C8 at the all-zero matrix, whose determinant is zero. -/
theorem neg_singular_eq_identity_witness :
    (⟨0, 0, 0, 0, 0, 0, 0, 0, 0, 0, 0, 0, 0, 0, 0, 0⟩ : Matrix4).det = 0 ∧
    (⟨0, 0, 0, 0, 0, 0, 0, 0, 0, 0, 0, 0, 0, 0, 0, 0⟩ : Matrix4).neg =
      Matrix4.identity :=
  ⟨by norm_num [Matrix4.det, Matrix4.cofactorResult],
   neg_singular_eq_identity _ (by norm_num [Matrix4.det, Matrix4.cofactorResult])⟩

end em

namespace gui

/-- C9: `Button::update` is this state transition: a `LOCKED` button is
left entirely unchanged (state and fill color); otherwise the new state
is `ACTIVE` when the mouse is within the shape's bounds and the left
button is pressed, `HOVER` when within bounds without a press, and
`IDLE` otherwise — hence update never produces `LOCKED` from a
non-locked state, and afterwards `isPressed()` is true exactly in the
within-bounds-and-pressed case. -/
theorem Button.update_state_machine (b : ButtonM)
    (withinBounds mousePressed : Bool) :
    (b.state = BState.LOCKED →
      b.update withinBounds mousePressed = b) ∧
    (b.state ≠ BState.LOCKED →
      (b.update withinBounds mousePressed).state =
        (if withinBounds then
          (if mousePressed then BState.ACTIVE else BState.HOVER)
         else BState.IDLE) ∧
      (b.update withinBounds mousePressed).state ≠ BState.LOCKED ∧
      (b.update withinBounds mousePressed).isPressed =
        (withinBounds && mousePressed)) := by
  constructor
  · intro h
    simp [ButtonM.update, h]
  · intro h
    simp only [ButtonM.update, if_neg h]
    cases withinBounds <;> cases mousePressed <;>
      simp [ButtonM.isPressed]

/-- Witness for C9: an `IDLE` button updated with the mouse inside its
bounds and the left button pressed becomes `ACTIVE` and reports
pressed. -/
theorem Button.update_state_machine_witness :
    (ButtonM.mk BState.IDLE ⟨0, 0, 0⟩).state ≠ BState.LOCKED ∧
    ((ButtonM.mk BState.IDLE ⟨0, 0, 0⟩).update true true).state =
      (if true then (if true then BState.ACTIVE else BState.HOVER)
       else BState.IDLE) ∧
    ((ButtonM.mk BState.IDLE ⟨0, 0, 0⟩).update true true).state ≠
      BState.LOCKED ∧
    ((ButtonM.mk BState.IDLE ⟨0, 0, 0⟩).update true true).isPressed =
      (true && true) :=
  ⟨by decide,
   (Button.update_state_machine (ButtonM.mk BState.IDLE ⟨0, 0, 0⟩)
      true true).2 (by decide)⟩

/-- Helper: the choice loop does not change the number of choices. -/
theorem updateChoicesGo_length (cs : List ButtonM) (ws : List Bool)
    (pressed : Bool) (count cur : ℕ) (ds : DropStatus) (ch : Bool) :
    (DropdownM.updateChoicesGo cs ws pressed count cur ds ch).1.length =
      cs.length := by
  induction cs generalizing ws count cur ds ch with
  | nil => rfl
  | cons c rest ih =>
    simp [DropdownM.updateChoicesGo, ih]

/-- Helper: the choice loop either keeps `m_currentChoice` or sets it to
one of the counter values `count, ..., count + cs.length - 1`. -/
theorem updateChoicesGo_cur_eq_or_between (cs : List ButtonM)
    (ws : List Bool) (pressed : Bool) (count cur : ℕ) (ds : DropStatus)
    (ch : Bool) :
    (DropdownM.updateChoicesGo cs ws pressed count cur ds ch).2.1 = cur ∨
      (count ≤
          (DropdownM.updateChoicesGo cs ws pressed count cur ds ch).2.1 ∧
        (DropdownM.updateChoicesGo cs ws pressed count cur ds ch).2.1 <
          count + cs.length) := by
  induction cs generalizing ws count cur ds ch with
  | nil =>
    left
    rfl
  | cons c rest ih =>
    simp only [DropdownM.updateChoicesGo, List.length_cons]
    by_cases hp : (ButtonM.update c (ws.headD false) pressed).isPressed
    · rcases ih ws.tail (count + 1) count
        DropStatus.HIDDEN true with h | h
      · right
        simp only [hp, if_true] at h ⊢
        omega
      · right
        simp only [hp, if_true] at h ⊢
        omega
    · rcases ih ws.tail (count + 1) cur ds ch with h | h
      · left
        simp only [hp, Bool.false_eq_true, if_false] at h ⊢
        omega
      · right
        simp only [hp, Bool.false_eq_true, if_false] at h ⊢
        omega

/-- Helper: reachable dropdown states keep `m_currentChoice` no larger
than the number of choices. -/
theorem dropReach_cur_le (d : DropdownM) (h : DropReach d) :
    d.currentChoice ≤ d.choices.length := by
  induction h with
  | init b =>
    exact Nat.le_refl 0
  | @add d' c hd ih =>
    simp only [DropdownM.addChoice, List.length_append]
    omega
  | @upd d' ws pressed mainWithin leftReleased hd ih =>
    simp only [DropdownM.update]
    by_cases hds : d'.dropStatus = DropStatus.DROPPED
    · simp only [if_pos hds, updateChoicesGo_length]
      rcases updateChoicesGo_cur_eq_or_between d'.choices ws pressed 1
          d'.currentChoice d'.dropStatus d'.isChanged with hc | hc <;>
        omega
    · simp only [if_neg hds]
      exact ih

/-- Helper: the choice loop leaves `m_currentChoice` unchanged when no
updated choice reports pressed, and otherwise sets it to the counter
value `count + j`, where `j` is the 0-based position of the most
recently (i.e. last) pressed choice of the pass. -/
theorem updateChoicesGo_cur_eq_lastPressed (cs : List ButtonM)
    (ws : List Bool) (pressed : Bool) (count cur : ℕ) (ds : DropStatus)
    (ch : Bool) :
    (DropdownM.updateChoicesGo cs ws pressed count cur ds ch).2.1 =
      (match lastPressedChoice cs ws pressed with
       | some j => count + j
       | none => cur) := by
  induction cs generalizing ws count cur ds ch with
  | nil => rfl
  | cons c rest ih =>
    simp only [DropdownM.updateChoicesGo, lastPressedChoice]
    rw [ih]
    cases hlp : lastPressedChoice rest ws.tail pressed with
    | some j =>
      simp only [hlp]
      ring
    | none =>
      simp only [hlp]
      by_cases hp : (ButtonM.update c (ws.headD false) pressed).isPressed
      · simp only [hp]
        simp
      · simp only [hp]
        simp

/-- C10: `m_currentChoice` is `0` at construction (the no-selection-yet
marker), `addChoice` never touches it, and one `update` changes it only
when the list is dropped and some choice's update reports pressed, in
which case it becomes the 1-based index of the most recently pressed
choice of the pass (`lastPressedChoice` is 0-based, hence `j + 1`);
otherwise it is kept.  Consequently, in every reachable state
`getCurrentChoice()` never exceeds the number of choices added. -/
theorem DropdownList.currentChoice_tracks_most_recent_press :
    (∀ b : ButtonM, (DropdownM.init b).getCurrentChoice = 0) ∧
    (∀ (d : DropdownM) (c : ButtonM),
      (d.addChoice c).getCurrentChoice = d.getCurrentChoice) ∧
    (∀ (d : DropdownM) (ws : List Bool)
        (pressed mainWithin leftReleased : Bool),
      (d.update ws pressed mainWithin leftReleased).getCurrentChoice =
        (if d.dropStatus = DropStatus.DROPPED then
          (match lastPressedChoice d.choices ws pressed with
           | some j => j + 1
           | none => d.getCurrentChoice)
         else d.getCurrentChoice)) ∧
    (∀ d : DropdownM, DropReach d →
      d.getCurrentChoice ≤ d.choices.length) := by
  refine ⟨fun b => rfl, fun d c => rfl, ?_, fun d h => dropReach_cur_le d h⟩
  intro d ws pressed mainWithin leftReleased
  simp only [DropdownM.update, DropdownM.getCurrentChoice]
  by_cases hds : d.dropStatus = DropStatus.DROPPED
  · simp only [if_pos hds]
    rw [updateChoicesGo_cur_eq_lastPressed]
    cases hlp : lastPressedChoice d.choices ws pressed with
    | some j =>
      simp only [hlp]
      ring
    | none =>
      simp only [hlp]
  · simp [hds]

/-- Witness for C10: a freshly constructed dropdown has choice `0`; a
dropped dropdown with one choice, updated with the mouse on that choice
and the left button pressed, records choice `1`; `addChoice` keeps the
value; and a reachable state respects the bound. -/
theorem DropdownList.currentChoice_tracks_most_recent_press_witness :
    (DropdownM.init ⟨BState.IDLE, ⟨0, 0, 0⟩⟩).getCurrentChoice = 0 ∧
    ((DropdownM.mk ⟨BState.IDLE, ⟨0, 0, 0⟩⟩ [⟨BState.IDLE, ⟨0, 0, 0⟩⟩]
          DropStatus.DROPPED 0 false).addChoice
        ⟨BState.IDLE, ⟨0, 0, 0⟩⟩).getCurrentChoice =
      (DropdownM.mk ⟨BState.IDLE, ⟨0, 0, 0⟩⟩ [⟨BState.IDLE, ⟨0, 0, 0⟩⟩]
        DropStatus.DROPPED 0 false).getCurrentChoice ∧
    ((DropdownM.mk ⟨BState.IDLE, ⟨0, 0, 0⟩⟩ [⟨BState.IDLE, ⟨0, 0, 0⟩⟩]
          DropStatus.DROPPED 0 false).update [true] true true
            true).getCurrentChoice =
      (if (DropdownM.mk ⟨BState.IDLE, ⟨0, 0, 0⟩⟩ [⟨BState.IDLE, ⟨0, 0, 0⟩⟩]
            DropStatus.DROPPED 0 false).dropStatus =
          DropStatus.DROPPED then
        (match lastPressedChoice
            (DropdownM.mk ⟨BState.IDLE, ⟨0, 0, 0⟩⟩
              [⟨BState.IDLE, ⟨0, 0, 0⟩⟩]
              DropStatus.DROPPED 0 false).choices [true] true with
         | some j => j + 1
         | none =>
           (DropdownM.mk ⟨BState.IDLE, ⟨0, 0, 0⟩⟩
             [⟨BState.IDLE, ⟨0, 0, 0⟩⟩]
             DropStatus.DROPPED 0 false).getCurrentChoice)
       else
         (DropdownM.mk ⟨BState.IDLE, ⟨0, 0, 0⟩⟩ [⟨BState.IDLE, ⟨0, 0, 0⟩⟩]
           DropStatus.DROPPED 0 false).getCurrentChoice) ∧
    ((DropdownM.init ⟨BState.IDLE, ⟨0, 0, 0⟩⟩).addChoice
        ⟨BState.IDLE, ⟨0, 0, 0⟩⟩).getCurrentChoice ≤
      ((DropdownM.init ⟨BState.IDLE, ⟨0, 0, 0⟩⟩).addChoice
        ⟨BState.IDLE, ⟨0, 0, 0⟩⟩).choices.length :=
  ⟨DropdownList.currentChoice_tracks_most_recent_press.1
      ⟨BState.IDLE, ⟨0, 0, 0⟩⟩,
   DropdownList.currentChoice_tracks_most_recent_press.2.1
      (DropdownM.mk ⟨BState.IDLE, ⟨0, 0, 0⟩⟩ [⟨BState.IDLE, ⟨0, 0, 0⟩⟩]
        DropStatus.DROPPED 0 false) ⟨BState.IDLE, ⟨0, 0, 0⟩⟩,
   DropdownList.currentChoice_tracks_most_recent_press.2.2.1
      (DropdownM.mk ⟨BState.IDLE, ⟨0, 0, 0⟩⟩ [⟨BState.IDLE, ⟨0, 0, 0⟩⟩]
        DropStatus.DROPPED 0 false) [true] true true true,
   DropdownList.currentChoice_tracks_most_recent_press.2.2.2
      ((DropdownM.init ⟨BState.IDLE, ⟨0, 0, 0⟩⟩).addChoice
        ⟨BState.IDLE, ⟨0, 0, 0⟩⟩)
      (DropReach.add _ (DropReach.init ⟨BState.IDLE, ⟨0, 0, 0⟩⟩))⟩

end gui
